import Mathlib

/-!
Verification of the Chat-Service client (chat session, presence and
credential handling) against its specification.

The definitions below are a shallow embedding of the JavaScript source:

* `refreshToken` embeds `tokenUtils.refreshToken`;
* `applyInEvent` embeds the socket event handlers registered in the
  `Chat` component (`on('join')`, `on('leave')`, `on('chat')`,
  `on('initial_messages')`, `on('more_messages')`, `on('online_users')`);
* `handleScroll` and `sendMessage` embed the functions of the same names.

Inbound payloads are modelled with the fields the handlers actually
inspect or move around: a message id (absent for synthetic join notices),
the sender name, the content, and the `type` tag each handler adds.
-/

/-- A chat message as delivered by the server, before the client handler
adds its `type` field.  `id` is `none` for payloads carrying no id. -/
structure RawMsg where
  id : Option Nat
  username : String
  content : Option String
deriving DecidableEq, Repr

/-- A message as stored in the `messages` state: the raw payload spread
together with the `type` field the handler adds (`"chat"` or `"join"`). -/
structure Msg where
  id : Option Nat
  username : String
  content : Option String
  mtype : String
deriving DecidableEq, Repr

/-- `{...msg, type: t}`: spread the raw payload and add a `type` field. -/
def withType (t : String) (m : RawMsg) : Msg :=
  ⟨m.id, m.username, m.content, t⟩

/-- The inbound socket events handled by the `Chat` component. -/
inductive InEvent where
  | joinEv (username : String)
  | leaveEv (username : String)
  | chat (m : RawMsg)
  | initialMessages (msgs : List RawMsg)
  | moreMessages (msgs : List RawMsg)
  | onlineUsers (users : List String)
deriving DecidableEq, Repr

/-- The component state the handlers update: the `messages` list and the
`onlineUsers` list. -/
structure ChatState where
  messages : List Msg
  onlineUsers : List String
deriving DecidableEq, Repr

/-- One step of the event handlers registered on the socket
(src/unnamed/part_001 lines 67-90):

* `join`: `setMessages(prev => [...prev, {...data, type: 'join'}])` and
  `setOnlineUsers(prev => [...prev, data.username])`;
* `leave`: `setOnlineUsers(prev => prev.filter(u => u !== data.username))`;
* `chat`: `setMessages(prev => [...prev, {...data.message, type: 'chat'}])`;
* `initial_messages`: `setMessages(msgs.map(m => ({...m, type: 'chat'})))`;
* `more_messages`:
  `setMessages(prev => [...older.map(m => ({...m, type: 'chat'})), ...prev])`;
* `online_users`: `setOnlineUsers(users)`. -/
def applyInEvent (e : InEvent) (st : ChatState) : ChatState :=
  match e with
  | .joinEv u =>
      ⟨st.messages ++ [⟨none, u, none, "join"⟩], st.onlineUsers ++ [u]⟩
  | .leaveEv u =>
      ⟨st.messages, st.onlineUsers.filter (fun x => x != u)⟩
  | .chat m =>
      ⟨st.messages ++ [withType "chat" m], st.onlineUsers⟩
  | .initialMessages msgs =>
      ⟨msgs.map (withType "chat"), st.onlineUsers⟩
  | .moreMessages older =>
      ⟨older.map (withType "chat") ++ st.messages, st.onlineUsers⟩
  | .onlineUsers users =>
      ⟨st.messages, users⟩

/-- A sequence of inbound events applied in arrival order. -/
def applyInEvents (evs : List InEvent) (st : ChatState) : ChatState :=
  evs.foldl (fun s e => applyInEvent e s) st

/-- Whether an event is the `initial_messages` snapshot. -/
def InEvent.isInitial : InEvent → Bool
  | .initialMessages _ => true
  | _ => false

/-- The messages a run of events inserts at the head of the log: each
`more_messages` page, later pages in front of earlier ones. -/
def pageHead : List InEvent → List Msg
  | [] => []
  | e :: rest =>
      pageHead rest ++
        (match e with
         | .moreMessages older => older.map (withType "chat")
         | _ => [])

/-- The messages a run of events appends at the tail of the log: each
`chat` message and `join` notice, in arrival order. -/
def liveTail : List InEvent → List Msg
  | [] => []
  | e :: rest =>
      (match e with
       | .chat m => [withType "chat" m]
       | .joinEv u => [⟨none, u, none, "join"⟩]
       | _ => []) ++ liveTail rest

/-- A stored access token: an opaque payload together with the expiry
instant `jwtDecode` extracts from it (seconds, compared against
`Date.now() / 1000`). -/
structure Token where
  payload : Nat
  exp : Nat
deriving DecidableEq, Repr

/-- The outcome of the `fetch` to `/refresh-token`: a 2xx response
carrying `data.access_token`, a non-2xx response (`response.ok` false,
e.g. 401), or a thrown network error. -/
inductive RefreshResponse where
  | ok (access_token : Token)
  | httpError
  | networkError
deriving DecidableEq, Repr

/-- Whether the renewal attempt failed (non-2xx or thrown). -/
def RefreshResponse.failed : RefreshResponse → Bool
  | .ok _ => false
  | .httpError => true
  | .networkError => true

/-- `tokenUtils.refreshToken` (src/unnamed/part_000 lines 3-35), as a
function of the stored token (`localStorage.getItem('token')`), the
current time, and the renewal endpoint's response.  It returns the store
after the call, the value returned to the caller, and the number of
network calls performed:

* no stored token: return `null`, no network call;
* stored token not yet expired: return it unchanged, no network call;
* expired: one `fetch`; on ok store and return `data.access_token`, on
  a non-2xx response or a thrown error remove the stored token and
  return `null`. -/
def refreshToken (store : Option Token) (now : Nat) (resp : RefreshResponse) :
    Option Token × Option Token × Nat :=
  match store with
  | none => (none, none, 0)
  | some token =>
    if token.exp < now then
      match resp with
      | .ok newTok => (some newTok, some newTok, 1)
      | .httpError => (none, none, 1)
      | .networkError => (none, none, 1)
    else (some token, some token, 0)

/-- The value a completed renewal hands to its caller. -/
def renewalResult : RefreshResponse → Option Token
  | .ok t => some t
  | .httpError => none
  | .networkError => none

/-- Where one call to `refreshToken` stands.  The function body runs
synchronously from the `localStorage.getItem` up to the `await fetch`;
`awaitingFetch` is the suspension at that `await`, remembering the token
the request was sent with. -/
inductive CallerPhase where
  | start
  | awaitingFetch (sentToken : Token)
  | done (result : Option Token)
deriving DecidableEq, Repr

/-- Shared state of two calls to `refreshToken` racing on the same
`localStorage` store, with a counter of renewal network calls. -/
structure RaceState where
  store : Option Token
  fetchCalls : Nat
  a : CallerPhase
  b : CallerPhase
deriving DecidableEq, Repr

/-- Run one caller of `refreshToken` for one scheduling slot.  The first
slot executes the synchronous prefix of the function body (read the
store, decode, compare the expiry, and start the `fetch` when expired);
the second slot executes the continuation after the `fetch` resolves
with `resp` (store or remove the token, return).  A finished caller is
inert. -/
def stepPhase (now : Nat) (resp : RefreshResponse)
    (store : Option Token) (ph : CallerPhase) (fetchCalls : Nat) :
    CallerPhase × Option Token × Nat :=
  match ph with
  | .start =>
    match store with
    | none => (.done none, store, fetchCalls)
    | some token =>
      if token.exp < now then (.awaitingFetch token, store, fetchCalls + 1)
      else (.done (some token), store, fetchCalls)
  | .awaitingFetch _ =>
    match resp with
    | .ok newTok => (.done (some newTok), some newTok, fetchCalls)
    | .httpError => (.done none, none, fetchCalls)
    | .networkError => (.done none, none, fetchCalls)
  | .done r => (.done r, store, fetchCalls)

/-- Which of the two racing callers runs in a scheduling slot. -/
inductive CallerId where
  | A
  | B
deriving DecidableEq, Repr

/-- Give one scheduling slot to the named caller.  `respA` and `respB`
are the responses the two callers' fetches eventually resolve with. -/
def raceStep (now : Nat) (respA respB : RefreshResponse)
    (st : RaceState) (who : CallerId) : RaceState :=
  match who with
  | .A =>
      match stepPhase now respA st.store st.a st.fetchCalls with
      | (ph, store, fc) => ⟨store, fc, ph, st.b⟩
  | .B =>
      match stepPhase now respB st.store st.b st.fetchCalls with
      | (ph, store, fc) => ⟨store, fc, st.a, ph⟩

/-- Run the two racing callers under an interleaving schedule. -/
def raceRun (now : Nat) (respA respB : RefreshResponse)
    (sched : List CallerId) (st : RaceState) : RaceState :=
  sched.foldl (raceStep now respA respB) st

/-- A selected file: its name, its MIME `type`, and its bytes
(`file.arrayBuffer()`). -/
structure FileData where
  name : String
  mime : String
  bytes : List Nat
deriving DecidableEq, Repr

/-- The current user, as fetched from `/users/me`. -/
structure UserInfo where
  email : String
  username : String
deriving DecidableEq, Repr

/-- The outbound `chat` payload `sendMessage` builds.  `file_name` and
`file` are present exactly when a file is attached. -/
structure OutMessage where
  content : String
  message_type : String
  user_email : String
  username : String
  chat_room_id : Nat
  file_name : Option String
  file : Option (List Nat)
deriving DecidableEq, Repr

/-- The events the component emits on the socket. -/
inductive OutEvent where
  | getMoreMessages (oldest_message_id : Option Nat) (chat_room_id : Nat)
  | chatOut (payload : OutMessage)
deriving DecidableEq, Repr

/-- The state `handleScroll` reads: the container's scroll position, the
`messages` state and the room id. -/
structure UIState where
  scrollTop : Nat
  messages : List Msg
  chatRoomId : Nat
deriving DecidableEq, Repr

/-- `handleScroll` (src/unnamed/part_001 lines 126-130), returning the
list of events it emits: if `scrollTop === 0 && messages.length > 0`, it
emits `get_more_messages` carrying `messages[0].id` as the cursor;
otherwise nothing. -/
def handleScroll (st : UIState) : List OutEvent :=
  if st.scrollTop = 0 then
    match st.messages with
    | [] => []
    | m :: _ => [.getMoreMessages m.id st.chatRoomId]
  else []

/-- The state `sendMessage` reads and writes: the text input `message`,
the selected `file`, the connection flag, the current user, the room id
and the `messages` log. -/
structure SendState where
  message : String
  file : Option FileData
  isConnected : Bool
  userInfo : UserInfo
  chatRoomId : Nat
  messages : List Msg
deriving DecidableEq, Repr

/-- Truthiness of `message.trim()`: the trimmed string is non-empty,
i.e. the string contains a non-whitespace character. -/
def trimNonempty (s : String) : Bool :=
  s.data.any (fun c => !c.isWhitespace)

/-- `s.startsWith(p)`, computed on the character lists. -/
def strStartsWith (s p : String) : Bool :=
  s.data.take p.data.length == p.data

/-- `sendMessage` (src/unnamed/part_001 lines 132-154), returning the
state after the call and the list of events it emits.  If
`message.trim()` is non-empty or a file is selected, it builds the
payload (`message_type` is `image`/`file` by the MIME type when a file
is attached, `text` otherwise), emits it as a `chat` event, and clears
the input and the file; otherwise it does nothing.  The connection flag
is never consulted. -/
def sendMessage (st : SendState) : SendState × List OutEvent :=
  if trimNonempty st.message ∨ st.file.isSome then
    let payload : OutMessage :=
      ⟨st.message,
       (match st.file with
        | some f => if strStartsWith f.mime "image/" then "image" else "file"
        | none => "text"),
       st.userInfo.email, st.userInfo.username, st.chatRoomId,
       st.file.map FileData.name, st.file.map FileData.bytes⟩
    (⟨"", none, st.isConnected, st.userInfo, st.chatRoomId, st.messages⟩,
     [.chatOut payload])
  else (st, [])

theorem applyInEvents_nil (st : ChatState) : applyInEvents [] st = st := rfl

theorem applyInEvents_cons (e : InEvent) (evs : List InEvent) (st : ChatState) :
    applyInEvents (e :: evs) st = applyInEvents evs (applyInEvent e st) := rfl

/-- C1 counterexample: with the log holding the single message of id 1,
redelivering that very message as a live `chat` event changes the log
(the handler appends unconditionally), and redelivering it as a
`more_messages` page prepends it again instead of skipping the present
id.  The spec's duplicate suppression does not exist in the code. -/
theorem c1_counterexample :
    (applyInEvent (.chat ⟨some 1, "u", some "a"⟩)
        ⟨[withType "chat" ⟨some 1, "u", some "a"⟩], []⟩).messages
      ≠ [withType "chat" ⟨some 1, "u", some "a"⟩] ∧
    (applyInEvent (.moreMessages [⟨some 1, "u", some "a"⟩])
        ⟨[withType "chat" ⟨some 1, "u", some "a"⟩], []⟩).messages
      ≠ [withType "chat" ⟨some 1, "u", some "a"⟩] := by
  decide

/-- C1 (amended): the `chat` handler always appends and the
`more_messages` handler always prepends, regardless of ids already in
the log: neither is idempotent, and applying the same event twice
leaves two entries with the same non-null id in the log. -/
theorem c1_amended (m : RawMsg) (st : ChatState) (i : Nat) (hid : m.id = some i) :
    (applyInEvent (.chat m) (applyInEvent (.chat m) st)).messages
        ≠ (applyInEvent (.chat m) st).messages ∧
    (applyInEvent (.moreMessages [m]) (applyInEvent (.moreMessages [m]) st)).messages
        ≠ (applyInEvent (.moreMessages [m]) st).messages ∧
    2 ≤ ((applyInEvent (.chat m) (applyInEvent (.chat m) st)).messages.filter
          (fun e => e.id == some i)).length := by
  refine ⟨?_, ?_, ?_⟩
  · intro heq
    have hlen := congrArg List.length heq
    simp [applyInEvent] at hlen
  · intro heq
    have hlen := congrArg List.length heq
    simp [applyInEvent] at hlen
  · simp [applyInEvent, List.filter_append, withType, hid]

theorem c1_amended_witness :
    (⟨some 1, "u", some "a"⟩ : RawMsg).id = some 1 ∧
    ((applyInEvent (.chat ⟨some 1, "u", some "a"⟩)
        (applyInEvent (.chat ⟨some 1, "u", some "a"⟩) ⟨[], []⟩)).messages
        ≠ (applyInEvent (.chat ⟨some 1, "u", some "a"⟩) ⟨[], []⟩).messages ∧
    (applyInEvent (.moreMessages [⟨some 1, "u", some "a"⟩])
        (applyInEvent (.moreMessages [⟨some 1, "u", some "a"⟩]) ⟨[], []⟩)).messages
        ≠ (applyInEvent (.moreMessages [⟨some 1, "u", some "a"⟩]) ⟨[], []⟩).messages ∧
    2 ≤ ((applyInEvent (.chat ⟨some 1, "u", some "a"⟩)
        (applyInEvent (.chat ⟨some 1, "u", some "a"⟩) ⟨[], []⟩)).messages.filter
          (fun e => e.id == some 1)).length) :=
  ⟨rfl, c1_amended ⟨some 1, "u", some "a"⟩ ⟨[], []⟩ 1 rfl⟩

/-- C2 counterexample: starting from the empty state, the sequence
`online_users ["u"]` then `join "u"` leaves the presence list
`["u", "u"]`: a join delta for an identity that is already present is
not a no-op, and the list ends up with a duplicate. -/
theorem c2_counterexample :
    (applyInEvent (.joinEv "u")
        (applyInEvent (.onlineUsers ["u"]) ⟨[], []⟩)).onlineUsers = ["u", "u"] ∧
    ¬ (applyInEvent (.joinEv "u")
        (applyInEvent (.onlineUsers ["u"]) ⟨[], []⟩)).onlineUsers.Nodup := by
  decide

/-- C2 (amended): a join delta always appends the identity, present or
not — each join adds one more copy, so join is not idempotent and
duplicates accumulate; a leave delta is a no-op when the identity is
absent; a replace overwrites the list with the delivered snapshot. -/
theorem c2_amended (u : String) (st : ChatState) (h : u ∉ st.onlineUsers) :
    (applyInEvent (.joinEv u) (applyInEvent (.joinEv u) st)).onlineUsers
        ≠ (applyInEvent (.joinEv u) st).onlineUsers ∧
    (applyInEvent (.joinEv u) (applyInEvent (.joinEv u) st)).onlineUsers.count u
        = st.onlineUsers.count u + 2 ∧
    (applyInEvent (.leaveEv u) st).onlineUsers = st.onlineUsers := by
  refine ⟨?_, ?_, ?_⟩
  · intro heq
    have hlen := congrArg List.length heq
    simp [applyInEvent] at hlen
  · simp [applyInEvent, List.count_append]
  · simp only [applyInEvent]
    rw [List.filter_eq_self]
    intro a ha
    simp only [bne_iff_ne, ne_eq, decide_eq_true_eq]
    intro hau
    exact h (hau ▸ ha)

theorem c2_amended_witness :
    "u" ∉ (⟨[], ["a"]⟩ : ChatState).onlineUsers ∧
    ((applyInEvent (.joinEv "u") (applyInEvent (.joinEv "u") ⟨[], ["a"]⟩)).onlineUsers
        ≠ (applyInEvent (.joinEv "u") ⟨[], ["a"]⟩).onlineUsers ∧
    (applyInEvent (.joinEv "u") (applyInEvent (.joinEv "u") ⟨[], ["a"]⟩)).onlineUsers.count "u"
        = (⟨[], ["a"]⟩ : ChatState).onlineUsers.count "u" + 2 ∧
    (applyInEvent (.leaveEv "u") ⟨[], ["a"]⟩).onlineUsers
        = (⟨[], ["a"]⟩ : ChatState).onlineUsers) :=
  ⟨by decide, c2_amended "u" ⟨[], ["a"]⟩ (by decide)⟩

/-- C10: the `leave` handler filters the presence list, so a leave delta
for `u` removes every occurrence of `u` (even duplicates introduced by
earlier joins), is idempotent, and is the identity on a list not
containing `u`. -/
theorem c10_leave_removes_all (u : String) (st st2 : ChatState)
    (h : u ∉ st2.onlineUsers) :
    (applyInEvent (.leaveEv u) st).onlineUsers.count u = 0 ∧
    applyInEvent (.leaveEv u) (applyInEvent (.leaveEv u) st)
        = applyInEvent (.leaveEv u) st ∧
    (applyInEvent (.leaveEv u) st2).onlineUsers = st2.onlineUsers := by
  refine ⟨?_, ?_, ?_⟩
  · rw [List.count_eq_zero]
    simp [applyInEvent, List.mem_filter]
  · simp [applyInEvent, List.filter_filter]
  · simp only [applyInEvent]
    rw [List.filter_eq_self]
    intro a ha
    simp only [bne_iff_ne, ne_eq, decide_eq_true_eq]
    intro hau
    exact h (hau ▸ ha)

theorem c10_leave_removes_all_witness :
    "u" ∉ (⟨[], ["a", "b"]⟩ : ChatState).onlineUsers ∧
    ((applyInEvent (.leaveEv "u") ⟨[], ["a", "u", "b", "u"]⟩).onlineUsers.count "u" = 0 ∧
    applyInEvent (.leaveEv "u") (applyInEvent (.leaveEv "u") ⟨[], ["a", "u", "b", "u"]⟩)
        = applyInEvent (.leaveEv "u") ⟨[], ["a", "u", "b", "u"]⟩ ∧
    (applyInEvent (.leaveEv "u") ⟨[], ["a", "b"]⟩).onlineUsers
        = (⟨[], ["a", "b"]⟩ : ChatState).onlineUsers) :=
  ⟨by decide, c10_leave_removes_all "u" ⟨[], ["a", "u", "b", "u"]⟩ ⟨[], ["a", "b"]⟩ (by decide)⟩

/-- C7: the `initial_messages` handler replaces the log with exactly the
delivered snapshot in delivered (oldest-first) order, tagged `chat`,
whatever event history produced the prior state — a second seed after a
reconnect erases every earlier entry. -/
theorem c7_seed_replaces (msgs : List RawMsg) (evs : List InEvent) (st0 : ChatState) :
    (applyInEvent (.initialMessages msgs) (applyInEvents evs st0)).messages
      = msgs.map (withType "chat") := rfl

/-- C8: under any run of events containing no `initial_messages`
snapshot, the log decomposes as the pages prepended by the run (each
page kept whole and in order, later pages in front), then the prior log
unchanged and contiguous, then the live messages appended by the run in
arrival order — so every element of a seed snapshot or of an earlier
page stays before every element appended after it, and nothing is
re-sorted. -/
theorem c8_ordering (evs : List InEvent)
    (h : (evs.all fun e => !e.isInitial) = true) (st : ChatState) :
    (applyInEvents evs st).messages = pageHead evs ++ st.messages ++ liveTail evs := by
  induction evs generalizing st with
  | nil => simp [applyInEvents, pageHead, liveTail]
  | cons e rest ih =>
    simp only [List.all_cons, Bool.and_eq_true] at h
    rw [applyInEvents_cons, ih h.2]
    cases e with
    | joinEv u => simp [applyInEvent, pageHead, liveTail]
    | leaveEv u => simp [applyInEvent, pageHead, liveTail]
    | chat m => simp [applyInEvent, pageHead, liveTail]
    | initialMessages msgs => simp [InEvent.isInitial] at h
    | moreMessages older => simp [applyInEvent, pageHead, liveTail]
    | onlineUsers users => simp [applyInEvent, pageHead, liveTail]

theorem c8_ordering_witness :
    (([.chat ⟨some 2, "v", some "b"⟩,
       .moreMessages [⟨some 0, "w", some "c"⟩],
       .leaveEv "x"] : List InEvent).all fun e => !e.isInitial) = true ∧
    (applyInEvents
        [.chat ⟨some 2, "v", some "b"⟩,
         .moreMessages [⟨some 0, "w", some "c"⟩],
         .leaveEv "x"]
        ⟨[withType "chat" ⟨some 1, "u", some "a"⟩], ["u"]⟩).messages
      = pageHead
          [.chat ⟨some 2, "v", some "b"⟩,
           .moreMessages [⟨some 0, "w", some "c"⟩],
           .leaveEv "x"] ++
        [withType "chat" ⟨some 1, "u", some "a"⟩] ++
        liveTail
          [.chat ⟨some 2, "v", some "b"⟩,
           .moreMessages [⟨some 0, "w", some "c"⟩],
           .leaveEv "x"] :=
  ⟨by decide,
   c8_ordering
     [.chat ⟨some 2, "v", some "b"⟩,
      .moreMessages [⟨some 0, "w", some "c"⟩],
      .leaveEv "x"]
     (by decide)
     ⟨[withType "chat" ⟨some 1, "u", some "a"⟩], ["u"]⟩⟩

/-- Sanity check: a single caller run through the race model (the other
caller already finished) computes exactly what `refreshToken` computes —
final store, returned value, and network-call count. -/
theorem raceRun_single_refreshToken (store : Option Token) (now : Nat)
    (resp : RefreshResponse) :
    (raceRun now resp resp [.A, .A] ⟨store, 0, .start, .done none⟩).store
        = (refreshToken store now resp).1 ∧
    (raceRun now resp resp [.A, .A] ⟨store, 0, .start, .done none⟩).a
        = .done (refreshToken store now resp).2.1 ∧
    (raceRun now resp resp [.A, .A] ⟨store, 0, .start, .done none⟩).fetchCalls
        = (refreshToken store now resp).2.2 := by
  cases store with
  | none => simp [raceRun, raceStep, stepPhase, refreshToken]
  | some tok =>
    by_cases h : tok.exp < now
    · cases resp <;> simp [raceRun, raceStep, stepPhase, refreshToken, h]
    · simp [raceRun, raceStep, stepPhase, refreshToken, h]

/-- C3 counterexample: two calls to `refreshToken` racing on the same
expired stored credential (both read the store before either fetch
resolves, as the synchronous prefix of each call does) perform two
renewal network calls, not one. -/
theorem c3_counterexample :
    (raceRun 20 (.ok ⟨2, 99⟩) (.ok ⟨3, 99⟩) [.A, .B, .A, .B]
        ⟨some ⟨1, 10⟩, 0, .start, .start⟩).fetchCalls = 2 ∧
    (raceRun 20 (.ok ⟨2, 99⟩) (.ok ⟨3, 99⟩) [.A, .B, .A, .B]
        ⟨some ⟨1, 10⟩, 0, .start, .start⟩).fetchCalls ≠ 1 := by
  decide

/-- C3 (amended): `refreshToken` keeps no in-flight renewal state, so
there is no coalescing: two concurrent calls on an expired credential
each perform their own renewal network call — two in total — and each
caller observes the result of its own attempt, not a shared one. -/
theorem c3_amended (tok : Token) (now : Nat) (respA respB : RefreshResponse)
    (h : tok.exp < now) :
    (raceRun now respA respB [.A, .B, .A, .B]
        ⟨some tok, 0, .start, .start⟩).fetchCalls = 2 ∧
    (raceRun now respA respB [.A, .B, .A, .B]
        ⟨some tok, 0, .start, .start⟩).a = .done (renewalResult respA) ∧
    (raceRun now respA respB [.A, .B, .A, .B]
        ⟨some tok, 0, .start, .start⟩).b = .done (renewalResult respB) := by
  cases respA <;> cases respB <;>
    simp [raceRun, raceStep, stepPhase, renewalResult, h]

theorem c3_amended_witness :
    (⟨1, 10⟩ : Token).exp < 20 ∧
    ((raceRun 20 (.ok ⟨2, 99⟩) .httpError [.A, .B, .A, .B]
        ⟨some ⟨1, 10⟩, 0, .start, .start⟩).fetchCalls = 2 ∧
    (raceRun 20 (.ok ⟨2, 99⟩) .httpError [.A, .B, .A, .B]
        ⟨some ⟨1, 10⟩, 0, .start, .start⟩).a = .done (renewalResult (.ok ⟨2, 99⟩)) ∧
    (raceRun 20 (.ok ⟨2, 99⟩) .httpError [.A, .B, .A, .B]
        ⟨some ⟨1, 10⟩, 0, .start, .start⟩).b = .done (renewalResult .httpError)) :=
  ⟨by decide, c3_amended ⟨1, 10⟩ 20 (.ok ⟨2, 99⟩) .httpError (by decide)⟩

/-- C6: when the stored credential is expired and the renewal endpoint
fails (non-2xx or a thrown network error), `refreshToken` clears the
store and returns null with that one network call; and every call made
while the store is empty returns null without any network call — until
a fresh login stores a credential again. -/
theorem c6_renewal_failure (tok : Token) (now now2 : Nat)
    (resp resp2 : RefreshResponse)
    (hexp : tok.exp < now) (hfail : resp.failed = true) :
    refreshToken (some tok) now resp = (none, none, 1) ∧
    refreshToken none now2 resp2 = (none, none, 0) := by
  constructor
  · cases resp with
    | ok t => simp [RefreshResponse.failed] at hfail
    | httpError => simp [refreshToken, hexp]
    | networkError => simp [refreshToken, hexp]
  · rfl

theorem c6_renewal_failure_witness :
    (⟨1, 10⟩ : Token).exp < 20 ∧
    RefreshResponse.httpError.failed = true ∧
    (refreshToken (some ⟨1, 10⟩) 20 .httpError = (none, none, 1) ∧
     refreshToken none 25 (.ok ⟨9, 99⟩) = (none, none, 0)) :=
  ⟨by decide, by decide,
   c6_renewal_failure ⟨1, 10⟩ 20 25 .httpError (.ok ⟨9, 99⟩) (by decide) (by decide)⟩

/-- C4 counterexample: with the viewport at the top of a one-message
log, `handleScroll` emits a `get_more_messages` request; a second
invocation before any page response (the state it reads is unchanged)
emits another one — two requests issued, not one outstanding. -/
theorem c4_counterexample :
    handleScroll ⟨0, [withType "chat" ⟨some 5, "u", some "x"⟩], 1⟩
        = [OutEvent.getMoreMessages (some 5) 1] ∧
    (handleScroll ⟨0, [withType "chat" ⟨some 5, "u", some "x"⟩], 1⟩ ++
        handleScroll ⟨0, [withType "chat" ⟨some 5, "u", some "x"⟩], 1⟩).length = 2 := by
  decide

/-- C4 (amended): `handleScroll` has no in-flight guard: every
invocation with the viewport at the top of a non-empty log emits a
`get_more_messages` request carrying the oldest loaded message's id, so
k invocations before any response arrives issue k requests. -/
theorem c4_amended (st : UIState) (m : Msg) (rest : List Msg) (k : Nat)
    (htop : st.scrollTop = 0) (hmsgs : st.messages = m :: rest) :
    handleScroll st = [.getMoreMessages m.id st.chatRoomId] ∧
    (List.replicate k (handleScroll st)).flatten.length = k := by
  have h1 : handleScroll st = [.getMoreMessages m.id st.chatRoomId] := by
    simp [handleScroll, htop, hmsgs]
  refine ⟨h1, ?_⟩
  rw [h1]
  induction k with
  | zero => simp
  | succ n ih => simp [List.replicate_succ, ih]

theorem c4_amended_witness :
    (⟨0, [withType "chat" ⟨some 5, "u", some "x"⟩], 1⟩ : UIState).scrollTop = 0 ∧
    (⟨0, [withType "chat" ⟨some 5, "u", some "x"⟩], 1⟩ : UIState).messages
        = withType "chat" ⟨some 5, "u", some "x"⟩ :: [] ∧
    (handleScroll ⟨0, [withType "chat" ⟨some 5, "u", some "x"⟩], 1⟩
        = [.getMoreMessages (withType "chat" ⟨some 5, "u", some "x"⟩).id 1] ∧
     (List.replicate 3
        (handleScroll ⟨0, [withType "chat" ⟨some 5, "u", some "x"⟩], 1⟩)).flatten.length = 3) :=
  ⟨rfl, rfl,
   c4_amended ⟨0, [withType "chat" ⟨some 5, "u", some "x"⟩], 1⟩
     (withType "chat" ⟨some 5, "u", some "x"⟩) [] 3 rfl rfl⟩

/-- C5 counterexample: with non-empty text and the connection flag
false, `sendMessage` still emits the chat event — the claim that it is
a no-op whenever the session is not connected fails, because the code
never consults the connection state. -/
theorem c5_counterexample :
    (sendMessage ⟨"hi", none, false, ⟨"e", "u"⟩, 1, []⟩).2
        = [.chatOut ⟨"hi", "text", "e", "u", 1, none, none⟩] ∧
    (sendMessage ⟨"hi", none, false, ⟨"e", "u"⟩, 1, []⟩).2 ≠ [] := by
  decide

/-- C5 (amended): `sendMessage` is a no-op (no emission, no state
change) exactly when the trimmed text is empty and no file is attached;
otherwise it emits exactly one chat event — the connection state is not
consulted, so it emits even while disconnected. -/
theorem c5_amended (st st2 : SendState)
    (hempty : trimNonempty st.message = false) (hfile : st.file = none)
    (hsend : trimNonempty st2.message = true ∨ st2.file.isSome = true) :
    sendMessage st = (st, []) ∧ (sendMessage st2).2.length = 1 := by
  constructor
  · simp [sendMessage, hempty, hfile]
  · rcases hsend with h | h <;> simp [sendMessage, h]

theorem c5_amended_witness :
    trimNonempty (⟨"  ", none, true, ⟨"e", "u"⟩, 1, []⟩ : SendState).message = false ∧
    (⟨"  ", none, true, ⟨"e", "u"⟩, 1, []⟩ : SendState).file = none ∧
    (trimNonempty (⟨"hi", none, false, ⟨"e", "u"⟩, 1, []⟩ : SendState).message = true ∨
        (⟨"hi", none, false, ⟨"e", "u"⟩, 1, []⟩ : SendState).file.isSome = true) ∧
    (sendMessage ⟨"  ", none, true, ⟨"e", "u"⟩, 1, []⟩
        = (⟨"  ", none, true, ⟨"e", "u"⟩, 1, []⟩, []) ∧
     (sendMessage ⟨"hi", none, false, ⟨"e", "u"⟩, 1, []⟩).2.length = 1) :=
  ⟨by decide, rfl, Or.inl (by decide),
   c5_amended ⟨"  ", none, true, ⟨"e", "u"⟩, 1, []⟩
     ⟨"hi", none, false, ⟨"e", "u"⟩, 1, []⟩
     (by decide) rfl (Or.inl (by decide))⟩

/-- C9: `sendMessage` never touches the local message log: whether it
emits or not, the `messages` state after the call is exactly what it
was before — the sent message only enters the log when the server's
echo arrives as a live `chat` event. -/
theorem c9_sendMessage_frame (st : SendState) :
    ((sendMessage st).1).messages = st.messages := by
  simp only [sendMessage]
  split <;> rfl
